import Mathlib

/-!
# Verification of the car/fob black-box test harness

Shallow embedding of `testing/protocol.py` and `testing/conftest.py`.
Python strings are modelled as `List Char`, byte strings as `List Nat`
(each element `< 256`).
-/

namespace Harness

/-- Python whitespace characters relevant to `str.strip` / `bytes.fromhex`. -/
def isSpace (c : Char) : Bool :=
  c == ' ' || c == '\t' || c == '\n' || c == '\x0d' || c == '\x0b' || c == '\x0c'

/-- Python `s.lstrip()`. -/
def lstrip (s : List Char) : List Char := s.dropWhile isSpace

/-- Python `s.rstrip()`. -/
def rstrip (s : List Char) : List Char := (s.reverse.dropWhile isSpace).reverse

/-- Python `s.strip()`: drop leading and trailing whitespace. -/
def strip (s : List Char) : List Char := rstrip (lstrip s)

/-- Python `s.startswith(p)`. -/
def startsWith : List Char → List Char → Bool
  | _, [] => true
  | [], _ :: _ => false
  | c :: s, p :: ps => c == p && startsWith s ps

theorem startsWith_iff (s p : List Char) :
    startsWith s p = true ↔ ∃ t, s = p ++ t := by
  induction p generalizing s with
  | nil => simp [startsWith]
  | cons q ps ih =>
    cases s with
    | nil => simp [startsWith]
    | cons c cs =>
      simp only [startsWith, Bool.and_eq_true, beq_iff_eq, ih, List.cons_append,
        List.cons.injEq]
      constructor
      · rintro ⟨rfl, t, rfl⟩; exact ⟨t, rfl, rfl⟩
      · rintro ⟨t, rfl, rfl⟩; exact ⟨rfl, t, rfl⟩

theorem startsWith_append (p t : List Char) : startsWith (p ++ t) p = true :=
  (startsWith_iff _ _).mpr ⟨t, rfl⟩

/-- Model of `Response` in `testing/protocol.py`: success flag plus optional
value / error. -/
structure Response where
  success : Bool
  value : Option (List Char) := none
  error : Option (List Char) := none
deriving DecidableEq, Repr

/-- Model of `Response.__bool__`: the truth value of a `Response` is its
`success` field. -/
def Response.toBool (r : Response) : Bool := r.success

/-- Tail of `parse_response` reached when the nested `OK` branch falls
through: the `ERROR: ` check and the final unparseable case. -/
def parseResponseTail (line : List Char) : Response :=
  if startsWith line ("ERROR: ".data) then
    { success := false, error := some (line.drop 7) }
  else
    { success := false, error := some ("Unparseable: ".data ++ line) }

/-- Body of `parse_response` applied to the already-stripped line. -/
def parseStripped (line : List Char) : Response :=
  if startsWith line ("OK".data) then
    if line = "OK".data then { success := true }
    else if startsWith line ("OK: ".data) then
      { success := true, value := some (line.drop 4) }
    else parseResponseTail line
  else parseResponseTail line

/-- Model of `parse_response` in `testing/protocol.py`: strip the line, then
dispatch on `"OK"`, `"OK: "`, `"ERROR: "`, defaulting to an
`Unparseable:`-tagged failure. -/
def parse_response (raw : List Char) : Response :=
  parseStripped (strip raw)

example : parse_response ("OK".data) = { success := true } := by decide
example : parse_response ("OK: 5".data) =
    { success := true, value := some ("5".data) } := by decide
example : parse_response ("ERROR: bad key".data) =
    { success := false, error := some ("bad key".data) } := by decide
example : parse_response ("garbage".data) =
    { success := false, error := some ("Unparseable: garbage".data) } := by decide
example : parse_response ("ERROR".data) =
    { success := false, error := some ("Unparseable: ERROR".data) } := by decide
example : parse_response ("  OK: 5 \n".data) =
    { success := true, value := some ("5".data) } := by decide

theorem parseStripped_ok : parseStripped ("OK".data) = { success := true } := by
  decide

theorem parseStripped_okval (v : List Char) :
    parseStripped ("OK: ".data ++ v) =
      { success := true, value := some v } := by
  have e : ("OK: ".data ++ v) = 'O' :: 'K' :: ':' :: ' ' :: v := rfl
  have h1 : startsWith ("OK: ".data ++ v) ("OK".data) = true := by
    rw [show ("OK: ".data ++ v) = "OK".data ++ (':' :: ' ' :: v) from rfl]
    exact startsWith_append _ _
  have h2 : ¬ ("OK: ".data ++ v) = "OK".data := by
    rw [e]; simp [show "OK".data = ['O', 'K'] from rfl]
  have h3 : startsWith ("OK: ".data ++ v) ("OK: ".data) = true :=
    startsWith_append _ _
  rw [parseStripped, if_pos h1, if_neg h2, if_pos h3]
  rfl

theorem parseStripped_errval (v : List Char) :
    parseStripped ("ERROR: ".data ++ v) =
      { success := false, error := some v } := by
  have h1 : startsWith ("ERROR: ".data ++ v) ("OK".data) = false := by
    rw [show ("ERROR: ".data ++ v) = 'E' :: 'R' :: 'R' :: 'O' :: 'R' :: ':'
      :: ' ' :: v from rfl]
    simp [startsWith, show "OK".data = ['O', 'K'] from rfl]
  have h2 : startsWith ("ERROR: ".data ++ v) ("ERROR: ".data) = true :=
    startsWith_append _ _
  rw [parseStripped, h1, if_neg (by simp), parseResponseTail, if_pos h2]
  rfl

theorem parseStripped_unparseable (s : List Char)
    (hok : s ≠ "OK".data)
    (hokv : ∀ v, s ≠ "OK: ".data ++ v)
    (herrv : ∀ v, s ≠ "ERROR: ".data ++ v) :
    parseStripped s =
      { success := false, error := some ("Unparseable: ".data ++ s) } := by
  have hsw2 : startsWith s ("OK: ".data) = false := by
    rw [← Bool.not_eq_true, startsWith_iff]
    rintro ⟨t, rfl⟩; exact hokv t rfl
  have hsw3 : startsWith s ("ERROR: ".data) = false := by
    rw [← Bool.not_eq_true, startsWith_iff]
    rintro ⟨t, rfl⟩; exact herrv t rfl
  by_cases hsw1 : startsWith s ("OK".data) = true
  · rw [parseStripped, if_pos hsw1, if_neg hok, hsw2, if_neg (by simp),
      parseResponseTail, hsw3, if_neg (by simp)]
  · rw [parseStripped, if_neg hsw1, parseResponseTail, hsw3,
      if_neg (by simp)]

/-- C1 (corrected): after stripping, a line equal to `OK` yields success with
no value; a line of the form `OK: v` yields success with value `v`; a line of
the form `ERROR: v` yields failure with reason `v`; but the bare line
`ERROR` — which the claim's regex `^ERROR(: (.*))?$` also matches — is routed
to the generic unparseable failure instead of a failure carrying a captured
reason. -/
theorem c1_parse_response_shapes (raw : List Char) :
    (strip raw = "OK".data →
      parse_response raw = { success := true }) ∧
    (∀ v, strip raw = "OK: ".data ++ v →
      parse_response raw = { success := true, value := some v }) ∧
    (∀ v, strip raw = "ERROR: ".data ++ v →
      parse_response raw = { success := false, error := some v }) ∧
    (strip raw = "ERROR".data →
      parse_response raw =
        { success := false, error := some ("Unparseable: ERROR".data) }) := by
  refine ⟨?_, ?_, ?_, ?_⟩
  · intro h; rw [parse_response, h]; exact parseStripped_ok
  · intro v h; rw [parse_response, h]; exact parseStripped_okval v
  · intro v h; rw [parse_response, h]; exact parseStripped_errval v
  · intro h
    rw [parse_response, h]
    decide

/-- Witness for C1: concrete instantiations discharging each hypothesis. -/
theorem c1_parse_response_shapes_witness :
    parse_response ("  OK: 5\n".data) =
      { success := true, value := some ("5".data) } ∧
    parse_response ("ERROR: bad key".data) =
      { success := false, error := some ("bad key".data) } ∧
    parse_response (" OK ".data) = { success := true } ∧
    parse_response ("ERROR\n".data) =
      { success := false, error := some ("Unparseable: ERROR".data) } :=
  ⟨(c1_parse_response_shapes ("  OK: 5\n".data)).2.1 ("5".data) (by decide),
   (c1_parse_response_shapes ("ERROR: bad key".data)).2.2.1 ("bad key".data)
     (by decide),
   (c1_parse_response_shapes (" OK ".data)).1 (by decide),
   (c1_parse_response_shapes ("ERROR\n".data)).2.2.2 (by decide)⟩

/-- Counterexample for C1 as stated: the line `ERROR` matches the claim's
regex `^ERROR(: (.*))?$` (with the optional group absent, hence no captured
reason), yet `parse_response` returns the error `Unparseable: ERROR` — which
cannot be a captured reason, since no `v` satisfies `ERROR = ERROR: v`. -/
theorem c1_counterexample :
    (parse_response ("ERROR".data)).success = false ∧
    (parse_response ("ERROR".data)).error =
      some ("Unparseable: ERROR".data) ∧
    (∀ v : List Char, "ERROR".data ≠ "ERROR: ".data ++ v) := by
  refine ⟨by decide, by decide, ?_⟩
  intro v h
  rw [show ("ERROR".data : List Char) = ['E', 'R', 'R', 'O', 'R'] from rfl,
    show ("ERROR: ".data ++ v : List Char) =
      'E' :: 'R' :: 'R' :: 'O' :: 'R' :: ':' :: ' ' :: v from rfl] at h
  simp at h

/-- C2 (corrected): a line whose stripped form is neither `OK`, `OK: v`, nor
`ERROR: v` always yields a failure `Response` (never an exception — the
function is total), but its error field is the stripped line prefixed with
`Unparseable: `, not the bare stripped line. -/
theorem c2_unparseable_failure (raw : List Char)
    (hok : strip raw ≠ "OK".data)
    (hokv : ∀ v, strip raw ≠ "OK: ".data ++ v)
    (herrv : ∀ v, strip raw ≠ "ERROR: ".data ++ v) :
    parse_response raw =
      { success := false,
        error := some ("Unparseable: ".data ++ strip raw) } := by
  rw [parse_response]
  exact parseStripped_unparseable (strip raw) hok hokv herrv

/-- Witness for C2: the stripped line `garbage` matches none of the three
shapes, and parses to the tagged failure. -/
theorem c2_unparseable_failure_witness :
    parse_response ("garbage".data) =
      { success := false, error := some ("Unparseable: garbage".data) } := by
  have h := c2_unparseable_failure ("garbage".data) (by decide)
    (fun v hv => by
      rw [show (strip ("garbage".data) : List Char) =
          ['g', 'a', 'r', 'b', 'a', 'g', 'e'] from rfl,
        show ("OK: ".data ++ v : List Char) =
          'O' :: 'K' :: ':' :: ' ' :: v from rfl] at hv
      simp at hv)
    (fun v hv => by
      rw [show (strip ("garbage".data) : List Char) =
          ['g', 'a', 'r', 'b', 'a', 'g', 'e'] from rfl,
        show ("ERROR: ".data ++ v : List Char) =
          'E' :: 'R' :: 'R' :: 'O' :: 'R' :: ':' :: ' ' :: v from rfl] at hv
      simp at hv)
  exact h.trans (by decide)

/-- Counterexample for C2 as stated: `parse_response "garbage"` is a failure,
but its error field is `Unparseable: garbage`, not the literal stripped line
`garbage` the claim requires. -/
theorem c2_counterexample :
    (parse_response ("garbage".data)).success = false ∧
    (parse_response ("garbage".data)).error =
      some ("Unparseable: garbage".data) ∧
    (parse_response ("garbage".data)).error ≠ some ("garbage".data) := by
  decide

/-- C10 (confirmed): every `Response` produced by `parse_response` has
`error = none` when `success` is true, `value = none` when `success` is
false, and its boolean coercion equals its `success` field. -/
theorem c10_response_invariant (raw : List Char) :
    ((parse_response raw).success = true → (parse_response raw).error = none) ∧
    ((parse_response raw).success = false →
      (parse_response raw).value = none) ∧
    (parse_response raw).toBool = (parse_response raw).success := by
  rw [parse_response, parseStripped]
  split
  · split
    · exact ⟨fun _ => rfl, fun h => by simp [Response.toBool] at h ⊢, rfl⟩
    · split
      · exact ⟨fun _ => rfl, fun h => by simp [Response.toBool] at h ⊢, rfl⟩
      · rw [parseResponseTail]
        split
        · exact ⟨fun h => by simp at h, fun _ => rfl, rfl⟩
        · exact ⟨fun h => by simp at h, fun _ => rfl, rfl⟩
  · rw [parseResponseTail]
    split
    · exact ⟨fun h => by simp at h, fun _ => rfl, rfl⟩
    · exact ⟨fun h => by simp at h, fun _ => rfl, rfl⟩

/-- Witness for C10: the invariant instantiated at two concrete lines, one
success and one failure. -/
theorem c10_response_invariant_witness :
    (((parse_response ("OK: 5".data)).success = true →
       (parse_response ("OK: 5".data)).error = none) ∧
     ((parse_response ("OK: 5".data)).success = false →
       (parse_response ("OK: 5".data)).value = none) ∧
     (parse_response ("OK: 5".data)).toBool =
       (parse_response ("OK: 5".data)).success) ∧
    (((parse_response ("nonsense".data)).success = true →
       (parse_response ("nonsense".data)).error = none) ∧
     ((parse_response ("nonsense".data)).success = false →
       (parse_response ("nonsense".data)).value = none) ∧
     (parse_response ("nonsense".data)).toBool =
       (parse_response ("nonsense".data)).success) :=
  ⟨c10_response_invariant ("OK: 5".data),
   c10_response_invariant ("nonsense".data)⟩

/-! ## FLASH_DATA structure handling (`testing/protocol.py`) -/

/-- Python `bytes.ljust(n, b'\x00')`: right-pad with zero bytes to length
`n` (no truncation when already longer). -/
def ljust (s : List Nat) (n : Nat) : List Nat :=
  s ++ List.replicate (n - s.length) 0

/-- FLASH_DATA_SIZE constant from `testing/protocol.py`. -/
def FLASH_DATA_SIZE : Nat := 40

/-- NUM_FEATURES constant from `testing/protocol.py`. -/
def NUM_FEATURES : Nat := 3

/-- Model of the `PairPacket` dataclass; byte strings are lists of byte
values. -/
structure PairPacket where
  car_id : List Nat
  password : List Nat
  pin : List Nat
deriving DecidableEq, Repr

/-- Model of `PairPacket.pack`: each field `.ljust(8, b'\x00')[:8]`. -/
def PairPacket.pack (p : PairPacket) : List Nat :=
  (ljust p.car_id 8).take 8 ++ (ljust p.password 8).take 8 ++
    (ljust p.pin 8).take 8

/-- Model of `PairPacket.unpack`: byte ranges `[0:8]`, `[8:16]`, `[16:24]`. -/
def PairPacket.unpack (d : List Nat) : PairPacket :=
  { car_id := d.take 8
    password := (d.drop 8).take 8
    pin := (d.drop 16).take 8 }

/-- Model of the `FeatureData` dataclass. -/
structure FeatureData where
  car_id : List Nat
  num_active : Nat
  features : List Nat
deriving DecidableEq, Repr

/-- Model of `FeatureData.pack`: `car_id.ljust(8)[:8]`, one byte
`num_active`, then `bytes(features[:3]).ljust(3, b'\x00')`. -/
def FeatureData.pack (f : FeatureData) : List Nat :=
  (ljust f.car_id 8).take 8 ++ [f.num_active] ++
    ljust (f.features.take NUM_FEATURES) NUM_FEATURES

/-- Model of `FeatureData.unpack`: `data[0:8]`, `data[8]`, `data[9:12]`. -/
def FeatureData.unpack (d : List Nat) : FeatureData :=
  { car_id := d.take 8
    num_active := d.getD 8 0
    features := (d.drop 9).take 3 }

/-- Model of the `FlashData` dataclass. -/
structure FlashData where
  paired : Bool
  pair_info : PairPacket
  feature_info : FeatureData
deriving DecidableEq, Repr

/-- Model of `FlashData.pack`: paired byte, packed pair info, packed feature
info, zero-padded to `FLASH_DATA_SIZE`. -/
def FlashData.pack (f : FlashData) : List Nat :=
  ljust ((if f.paired then [1] else [0]) ++ f.pair_info.pack ++
    f.feature_info.pack) FLASH_DATA_SIZE

/-- Model of `FlashData.unpack`: `data[0] != 0`, `data[1:25]`,
`data[25:37]`. -/
def FlashData.unpack (d : List Nat) : FlashData :=
  { paired := d.getD 0 0 != 0
    pair_info := PairPacket.unpack ((d.drop 1).take 24)
    feature_info := FeatureData.unpack ((d.drop 25).take 12) }

/-- Valid byte strings: every element is a byte value. -/
def ValidBytes (s : List Nat) : Prop := ∀ b ∈ s, b < 256

instance (s : List Nat) : Decidable (ValidBytes s) :=
  List.decidableBAll _ s

/-- Validity of a `PairPacket` per the claim: each field exactly 8 bytes. -/
def PairPacket.Valid (p : PairPacket) : Prop :=
  p.car_id.length = 8 ∧ p.password.length = 8 ∧ p.pin.length = 8 ∧
  ValidBytes p.car_id ∧ ValidBytes p.password ∧ ValidBytes p.pin

instance (p : PairPacket) : Decidable p.Valid := by
  rw [PairPacket.Valid]; infer_instance

/-- Validity of a `FeatureData` per the claim: 8-byte id, byte-valued
`num_active`, exactly 3 byte-valued features. -/
def FeatureData.Valid (f : FeatureData) : Prop :=
  f.car_id.length = 8 ∧ ValidBytes f.car_id ∧ f.num_active < 256 ∧
  f.features.length = 3 ∧ ValidBytes f.features

instance (f : FeatureData) : Decidable f.Valid := by
  rw [FeatureData.Valid]; infer_instance

/-- Validity of a `FlashData` per the claim. -/
def FlashData.Valid (f : FlashData) : Prop :=
  f.pair_info.Valid ∧ f.feature_info.Valid

instance (f : FlashData) : Decidable f.Valid := by
  rw [FlashData.Valid]; infer_instance

theorem ljust_of_length_eq {s : List Nat} {n : Nat} (h : s.length = n) :
    ljust s n = s := by
  simp [ljust, h]

theorem take_ljust_self {s : List Nat} (h : s.length = 8) :
    (ljust s 8).take 8 = s := by
  rw [ljust_of_length_eq h, ← h, List.take_length]

theorem pairPacket_pack_length (p : PairPacket) : p.pack.length = 24 := by
  simp [PairPacket.pack, ljust]
  omega

theorem featureData_pack_length (f : FeatureData) : f.pack.length = 12 := by
  simp [FeatureData.pack, ljust, NUM_FEATURES]
  omega

theorem pairPacket_unpack_pack {p : PairPacket} (h : p.Valid) :
    PairPacket.unpack p.pack = p := by
  obtain ⟨a, b, c⟩ := p
  rw [PairPacket.Valid] at h
  obtain ⟨h1, h2, h3, -, -, -⟩ := h
  simp only at h1 h2 h3
  rw [PairPacket.pack]
  simp only
  rw [take_ljust_self h1, take_ljust_self h2, take_ljust_self h3,
    List.append_assoc, PairPacket.unpack]
  simp only [PairPacket.mk.injEq]
  refine ⟨List.take_left' h1, ?_, ?_⟩
  · rw [List.drop_left' h1, List.take_left' h2]
  · rw [← List.append_assoc, List.drop_left' (by simp [h1, h2]), ← h3,
      List.take_length]

theorem featureData_unpack_pack {f : FeatureData} (h : f.Valid) :
    FeatureData.unpack f.pack = f := by
  obtain ⟨a, n, fs⟩ := f
  rw [FeatureData.Valid] at h
  obtain ⟨h1, -, -, h4, -⟩ := h
  simp only at h1 h4
  have hfs : ljust (fs.take NUM_FEATURES) NUM_FEATURES = fs := by
    rw [NUM_FEATURES, show fs.take 3 = fs from by rw [← h4, List.take_length],
      ljust_of_length_eq h4]
  rw [FeatureData.pack]
  simp only
  rw [hfs, take_ljust_self h1, List.append_assoc, FeatureData.unpack]
  simp only [FeatureData.mk.injEq]
  refine ⟨List.take_left' h1, ?_, ?_⟩
  · rw [List.getD_eq_getElem?_getD, List.getElem?_append_right h1.le]
    simp [h1]
  · rw [← List.append_assoc, List.drop_left' (by simp [h1]), ← h4,
      List.take_length]

/-- C3 (confirmed): for every valid `FlashData` value, unpacking the packed
bytes returns the value unchanged. -/
theorem c3_flashdata_roundtrip (f : FlashData) (h : f.Valid) :
    FlashData.unpack f.pack = f := by
  obtain ⟨b, pi, fi⟩ := f
  rw [FlashData.Valid] at h
  obtain ⟨hp, hf⟩ := h
  simp only at hp hf
  have hP : pi.pack.length = 24 := pairPacket_pack_length pi
  have hF : fi.pack.length = 12 := featureData_pack_length fi
  rw [FlashData.pack]
  simp only
  have hlen : ((if b then [1] else [0]) ++ pi.pack ++ fi.pack).length = 37 :=
    by cases b <;> simp [hP, hF]
  rw [ljust, hlen, FLASH_DATA_SIZE]
  have hassoc : ((if b then [1] else [0]) ++ pi.pack ++ fi.pack) ++
      List.replicate (40 - 37) 0 =
      (if b then [1] else [0]) ++ (pi.pack ++ (fi.pack ++
        List.replicate (40 - 37) 0)) := by
    simp [List.append_assoc]
  rw [hassoc, FlashData.unpack]
  simp only [FlashData.mk.injEq]
  have hb1 : ((if b then [1] else [0]) : List Nat).length = 1 := by
    cases b <;> rfl
  refine ⟨?_, ?_, ?_⟩
  · cases b <;> rfl
  · rw [List.drop_left' hb1, List.take_left' hP]
    exact pairPacket_unpack_pack hp
  · rw [← List.append_assoc, List.drop_left' (by rw [List.length_append,
      hb1, hP]), List.take_left' hF]
    exact featureData_unpack_pack hf

/-- Witness for C3: a concrete valid `FlashData` round-trips. -/
theorem c3_flashdata_roundtrip_witness :
    FlashData.Valid
      { paired := true
        pair_info :=
          { car_id := [1, 2, 3, 4, 5, 6, 7, 8]
            password := [9, 10, 11, 12, 13, 14, 15, 255]
            pin := [49, 50, 51, 52, 53, 54, 0, 0] }
        feature_info :=
          { car_id := [1, 2, 3, 4, 5, 6, 7, 8]
            num_active := 2
            features := [1, 2, 0] } } ∧
    FlashData.unpack
      (FlashData.pack
        { paired := true
          pair_info :=
            { car_id := [1, 2, 3, 4, 5, 6, 7, 8]
              password := [9, 10, 11, 12, 13, 14, 15, 255]
              pin := [49, 50, 51, 52, 53, 54, 0, 0] }
          feature_info :=
            { car_id := [1, 2, 3, 4, 5, 6, 7, 8]
              num_active := 2
              features := [1, 2, 0] } }) =
      { paired := true
        pair_info :=
          { car_id := [1, 2, 3, 4, 5, 6, 7, 8]
            password := [9, 10, 11, 12, 13, 14, 15, 255]
            pin := [49, 50, 51, 52, 53, 54, 0, 0] }
        feature_info :=
          { car_id := [1, 2, 3, 4, 5, 6, 7, 8]
            num_active := 2
            features := [1, 2, 0] } } :=
  ⟨by decide, c3_flashdata_roundtrip _ (by decide)⟩

/-! ## Hex transport: Python `bytes.hex` and `bytes.fromhex`, used by
`FlashData.to_hex` / `FlashData.from_hex` and by `cmd_enable`. -/

/-- Lowercase hex digit for a nibble value, as produced by `bytes.hex()`. -/
def hexDigitChar (n : Nat) : Char :=
  if n < 10 then Char.ofNat ('0'.toNat + n)
  else Char.ofNat ('a'.toNat + (n - 10))

/-- Hex encoding of one byte: high nibble digit then low nibble digit. -/
def encodeByte (b : Nat) : List Char :=
  [hexDigitChar (b / 16), hexDigitChar (b % 16)]

/-- Model of Python `bytes.hex()`: two lowercase hex digits per byte. -/
def encodeHex (bs : List Nat) : List Char := (bs.map encodeByte).flatten

/-- Value of a hex digit character, as accepted by `bytes.fromhex`. -/
def hexVal (c : Char) : Option Nat :=
  if '0' ≤ c ∧ c ≤ '9' then some (c.toNat - '0'.toNat)
  else if 'a' ≤ c ∧ c ≤ 'f' then some (c.toNat - 'a'.toNat + 10)
  else if 'A' ≤ c ∧ c ≤ 'F' then some (c.toNat - 'A'.toNat + 10)
  else none

/-- Model of Python `bytes.fromhex` (used by `FlashData.from_hex`):
whitespace between byte pairs is skipped; each byte needs two adjacent hex
digits; a lone trailing digit or a non-hex character raises `ValueError`,
modelled as `none`. -/
def decodeHex : List Char → Option (List Nat)
  | [] => some []
  | [c] => if isSpace c then some [] else none
  | c :: d :: rest =>
    if isSpace c then decodeHex (d :: rest)
    else
      match hexVal c, hexVal d with
      | some hi, some lo =>
        (decodeHex rest).map (fun bs => (hi * 16 + lo) :: bs)
      | _, _ => none

theorem hexVal_hexDigitChar : ∀ n, n < 16 → hexVal (hexDigitChar n) = some n := by
  decide

theorem isSpace_hexDigitChar : ∀ n, n < 16 →
    isSpace (hexDigitChar n) = false := by
  decide

/-- C4 (confirmed): hex decoding inverts hex encoding on every byte string,
including the empty one. -/
theorem c4_hex_roundtrip (bs : List Nat) (h : ValidBytes bs) :
    decodeHex (encodeHex bs) = some bs := by
  induction bs with
  | nil => rfl
  | cons b bs ih =>
    have hb : b < 256 := h b (List.mem_cons_self b bs)
    have hhi : b / 16 < 16 := by omega
    have hlo : b % 16 < 16 := by omega
    have h' : ValidBytes bs := fun x hx => h x (List.mem_cons_of_mem _ hx)
    show decodeHex (hexDigitChar (b / 16) :: hexDigitChar (b % 16) ::
      encodeHex bs) = some (b :: bs)
    rw [decodeHex]
    rw [isSpace_hexDigitChar _ hhi, hexVal_hexDigitChar _ hhi,
      hexVal_hexDigitChar _ hlo]
    simp only [Bool.false_eq_true, if_false, ih h', Option.map_some]
    have hdm : b / 16 * 16 + b % 16 = b := by omega
    rw [hdm]
    rfl

/-- Witness for C4: the single hypothesis discharged at a concrete byte
string. -/
theorem c4_hex_roundtrip_witness :
    decodeHex (encodeHex [0, 171, 255]) = some [0, 171, 255] :=
  c4_hex_roundtrip [0, 171, 255] (by decide)

theorem notSpace_of_hex (c : Char) (h : (hexVal c).isSome) :
    isSpace c = false := by
  cases hc : isSpace c
  · rfl
  · exfalso
    rw [isSpace] at hc
    simp only [Bool.or_eq_true, beq_iff_eq] at hc
    rcases hc with ((((rfl | rfl) | rfl) | rfl) | rfl) | rfl <;> revert h <;>
      decide

theorem decodeHex_cons_cons {c d : Char} {rest : List Char} {hi lo : Nat}
    (hcs : isSpace c = false) (hc : hexVal c = some hi)
    (hd : hexVal d = some lo) :
    decodeHex (c :: d :: rest) =
      (decodeHex rest).map (fun bs => (hi * 16 + lo) :: bs) := by
  rw [decodeHex, hcs, hc, hd]
  simp

/-- C7 (corrected): on a string of hex digits of odd length, `bytes.fromhex`
raises `ValueError` (modelled as `none`): there is no left-padding with a
zero nibble. -/
theorem c7_decodeHex_odd_none :
    ∀ (s : List Char), (∀ c ∈ s, (hexVal c).isSome) → s.length % 2 = 1 →
      decodeHex s = none
  | [] => by intro _ h; simp at h
  | [c] => by
    intro hhex _
    rw [decodeHex, notSpace_of_hex c (hhex c (by simp))]
    simp
  | c :: d :: rest => by
    intro hhex hodd
    have hc := hhex c (by simp)
    have hd := hhex d (by simp)
    obtain ⟨hi, hhi⟩ := Option.isSome_iff_exists.mp hc
    obtain ⟨lo, hlo⟩ := Option.isSome_iff_exists.mp hd
    rw [decodeHex_cons_cons (notSpace_of_hex c hc) hhi hlo,
      c7_decodeHex_odd_none rest (fun x hx => hhex x (by simp [hx]))
        (by simp at hodd ⊢; omega)]
    rfl

/-- Witness for C7: the odd-length all-hex string `abc` fails to decode. -/
theorem c7_decodeHex_odd_none_witness : decodeHex ("abc".data) = none :=
  c7_decodeHex_odd_none ("abc".data) (by decide) (by decide)

/-- Counterexample for C7 as stated: `decodeHex "abc"` does not equal
`decodeHex "0abc"` — the former errors while the latter decodes, so no
implicit left-padding happens. -/
theorem c7_counterexample :
    decodeHex ("abc".data) = none ∧
    decodeHex ("0abc".data) = some [10, 188] := by
  constructor
  · decide
  · decide

/-! ## Command building (`cmd_enable`, `cmd_set_flash_data`) -/

/-- Model of `FlashData.to_hex`: hex encoding of the packed record. -/
def FlashData.to_hex (f : FlashData) : List Char := encodeHex f.pack

/-- Command line built by `cmd_enable`: the payload is hex-encoded and
interpolated with no length check. -/
def cmd_enable_line (feature_package : List Nat) : List Char :=
  "enable ".data ++ encodeHex feature_package

/-- Command line built by `cmd_set_flash_data`: `setFlashData` plus the hex
of the packed `FlashData`. -/
def cmd_set_flash_data_line (f : FlashData) : List Char :=
  "setFlashData ".data ++ f.to_hex

theorem encodeHex_length (bs : List Nat) :
    (encodeHex bs).length = 2 * bs.length := by
  induction bs with
  | nil => rfl
  | cons b bs ih =>
    simp only [encodeHex, List.map_cons, List.flatten_cons, List.length_append,
      List.length_cons] at ih ⊢
    rw [ih]
    simp [encodeByte]
    omega

theorem flashData_pack_length (f : FlashData) : f.pack.length = 40 := by
  have hP := pairPacket_pack_length f.pair_info
  have hF := featureData_pack_length f.feature_info
  rw [FlashData.pack, ljust, FLASH_DATA_SIZE]
  cases hb : f.paired <;>
    simp [hb, hP, hF]

/-- Counterexample for C6 as stated: a 15-byte payload is not rejected —
`cmd_enable` hex-encodes it and builds a well-formed command line (there is
no validation step and no `ValidationError` anywhere in the code). -/
theorem c6_counterexample :
    cmd_enable_line (List.replicate 15 0) =
      "enable ".data ++ List.replicate 30 '0' ∧
    cmd_enable_line (List.replicate 17 0) =
      "enable ".data ++ List.replicate 34 '0' := by
  constructor
  · decide
  · decide

/-- C6 (corrected): no per-command payload length validation exists.
`cmd_enable` accepts a payload of every length `n` and always builds the
command `enable` plus `2 n` hex digits; `cmd_set_flash_data`'s payload is
fixed at 40 bytes (80 hex digits, a 93-character line) by construction of
`FlashData.pack`, not by any validation. -/
theorem c6_no_length_validation :
    (∀ p : List Nat, (cmd_enable_line p).length = 7 + 2 * p.length) ∧
    (∀ f : FlashData, (cmd_set_flash_data_line f).length = 93) := by
  constructor
  · intro p
    rw [cmd_enable_line, List.length_append, encodeHex_length,
      show ("enable ".data).length = 7 from rfl]
  · intro f
    rw [cmd_set_flash_data_line, List.length_append, FlashData.to_hex,
      encodeHex_length, flashData_pack_length,
      show ("setFlashData ".data).length = 13 from rfl]

/-! ## Device deployment and teardown (`testing/conftest.py`) -/

/-- Model of the `DeployedDevice` dataclass: role, platform, optional owned
process id, and whether the device owns a private host virtual link. The
serial channel object itself is modelled separately (`SerialState`). -/
structure DeployedDevice where
  role : List Char
  platform : List Char
  pid : Option Nat := none
  hasVsp : Bool := false
deriving DecidableEq, Repr

/-- Model of the handshake step of `deploy._deploy` (identical in hardware
and simulation mode): the startup line read from the channel is stripped;
unless it begins with `OK`, a `RuntimeError` carrying the observed line is
raised and no device is produced; otherwise the `DeployedDevice` is
constructed and returned. -/
def deployHandshake (role platform : List Char) (pid : Option Nat)
    (hasVsp : Bool) (rawStartup : List Char) :
    Except (List Char) DeployedDevice :=
  let startup := strip rawStartup
  if startsWith startup ("OK".data) then
    Except.ok { role := role, platform := platform, pid := pid,
                hasVsp := hasVsp }
  else
    Except.error ("Device didn\x27t start properly, got: ".data ++ startup)

/-- C5 (confirmed): a `DeployedDevice` is returned exactly when the stripped
startup line begins with `OK`; any other observed line (empty line from a
timeout, error line, malformed line) produces a failure carrying the
observed line, and no device. -/
theorem c5_handshake_gates_device (role platform : List Char)
    (pid : Option Nat) (hasVsp : Bool) (raw : List Char) :
    ((∃ d, deployHandshake role platform pid hasVsp raw = Except.ok d) ↔
      startsWith (strip raw) ("OK".data) = true) ∧
    (startsWith (strip raw) ("OK".data) = false →
      deployHandshake role platform pid hasVsp raw =
        Except.error ("Device didn\x27t start properly, got: ".data ++
          strip raw)) := by
  constructor
  · constructor
    · rintro ⟨d, hd⟩
      by_contra hsw
      rw [deployHandshake, if_neg hsw] at hd
      exact Except.noConfusion hd
    · intro hsw
      exact ⟨_, by rw [deployHandshake, if_pos hsw]⟩
  · intro hsw
    rw [deployHandshake, if_neg (by simp [hsw])]

/-- Witness for C5: the handshake line `OK: started` yields a device, and an
empty line (timeout) yields the failure carrying the observed line. -/
theorem c5_handshake_gates_device_witness :
    (∃ d, deployHandshake ("car".data) ("x86".data) (some 7) true
      ("OK: started".data) = Except.ok d) ∧
    deployHandshake ("car".data) ("x86".data) (some 7) true ([]) =
      Except.error ("Device didn\x27t start properly, got: ".data ++
        strip []) :=
  ⟨(c5_handshake_gates_device ("car".data) ("x86".data) (some 7) true
      ("OK: started".data)).1.mpr (by decide),
   (c5_handshake_gates_device ("car".data) ("x86".data) (some 7) true
      []).2 (by decide)⟩

/-- Observable effects of session teardown, tagged by device index. -/
inductive TeardownEvent
  | closeChannel (i : Nat)
  | killProcess (i : Nat)
  | stopHostLink (i : Nat)
  | stopBoardLink
  | closeBoardLink
deriving DecidableEq, Repr

/-- Model of `DeployedDevice.close` as its effect sequence: the serial
channel is closed first; then, if a process id is owned (Python truthiness:
present and nonzero), the process is terminated; then, if the device owns a
host virtual link, that link is stopped and closed. -/
def closeEvents (i : Nat) (d : DeployedDevice) : List TeardownEvent :=
  [TeardownEvent.closeChannel i] ++
  (if d.pid.getD 0 ≠ 0 then [TeardownEvent.killProcess i] else []) ++
  (if d.hasVsp then [TeardownEvent.stopHostLink i] else [])

/-- Model of the `deploy` fixture teardown in simulation mode: every
deployed device is closed in deployment order, then the shared board link is
stopped and closed. -/
def teardownSim (devs : List DeployedDevice) : List TeardownEvent :=
  (devs.enum.flatMap fun p => closeEvents p.1 p.2) ++
    [TeardownEvent.stopBoardLink, TeardownEvent.closeBoardLink]

theorem closeEvents_cases (i : Nat) (d : DeployedDevice)
    (e : TeardownEvent) (he : e ∈ closeEvents i d) :
    e = TeardownEvent.closeChannel i ∨ e = TeardownEvent.killProcess i ∨
      e = TeardownEvent.stopHostLink i := by
  rw [closeEvents] at he
  rcases List.mem_append.mp he with h | h
  · rcases List.mem_append.mp h with h2 | h2
    · left; simpa using h2
    · right; left; revert h2; split <;> simp
  · right; right; revert h; split <;> simp

/-- C8 (corrected): in simulation-mode teardown all per-device cleanup
events come strictly before the board-link events (the board link is never
released while device cleanup is pending), but within each device the
channel is closed first and the owned process is terminated after it — not
process-before-channel as claimed. -/
theorem c8_teardown_order (devs : List DeployedDevice) :
    (∀ e, e ∈ (devs.enum.flatMap fun p => closeEvents p.1 p.2) →
      e ≠ TeardownEvent.stopBoardLink ∧ e ≠ TeardownEvent.closeBoardLink) ∧
    teardownSim devs =
      (devs.enum.flatMap fun p => closeEvents p.1 p.2) ++
        [TeardownEvent.stopBoardLink, TeardownEvent.closeBoardLink] ∧
    (∀ i d, (closeEvents i d).head? =
      some (TeardownEvent.closeChannel i)) := by
  refine ⟨?_, rfl, fun i d => rfl⟩
  intro e he
  rw [List.mem_flatMap] at he
  obtain ⟨p, -, hep⟩ := he
  rcases closeEvents_cases p.1 p.2 e hep with rfl | rfl | rfl <;>
    exact ⟨fun h => TeardownEvent.noConfusion h,
           fun h => TeardownEvent.noConfusion h⟩

/-- Witness for C8: the membership hypothesis discharged on a concrete
one-device teardown. -/
theorem c8_teardown_order_witness :
    TeardownEvent.closeChannel 0 ≠ TeardownEvent.stopBoardLink ∧
    TeardownEvent.closeChannel 0 ≠ TeardownEvent.closeBoardLink :=
  (c8_teardown_order
    [{ role := "fob".data, platform := "x86".data, pid := some 5,
       hasVsp := true }]).1
    (TeardownEvent.closeChannel 0) (by decide)

/-- Counterexample for C8 as stated: with one deployed simulated device, the
teardown trace closes the channel (index 0) before terminating the owned
process (index 1) — the claim's process-before-channel order does not hold. -/
theorem c8_counterexample :
    teardownSim
      [{ role := "fob".data, platform := "x86".data, pid := some 5,
         hasVsp := true }] =
      [TeardownEvent.closeChannel 0, TeardownEvent.killProcess 0,
       TeardownEvent.stopHostLink 0, TeardownEvent.stopBoardLink,
       TeardownEvent.closeBoardLink] ∧
    (teardownSim
      [{ role := "fob".data, platform := "x86".data, pid := some 5,
         hasVsp := true }]).indexOf (TeardownEvent.closeChannel 0) <
    (teardownSim
      [{ role := "fob".data, platform := "x86".data, pid := some 5,
         hasVsp := true }]).indexOf (TeardownEvent.killProcess 0) := by
  constructor
  · decide
  · decide

/-! ## Channel receive with scoped timeout override
(`DeployedDevice.recv` in `testing/conftest.py`) -/

/-- State of the pyserial `Serial` object as `recv` sees it: the mutable
default `timeout` attribute plus an abstract remainder `σ` (buffers, file
descriptors) that `recv` itself never touches directly. -/
structure SerialState (σ : Type) where
  timeout : Option ℚ
  rest : σ
deriving Repr

/-- Outcome of `readline().decode(...)`: a line, or a raised exception. -/
inductive ReadOutcome
  | line (s : List Char)
  | exn (e : List Char)
deriving DecidableEq, Repr

/-- The `.strip()` applied to a successful read; an exception propagates. -/
def outcomeStrip : ReadOutcome → ReadOutcome
  | ReadOutcome.line s => ReadOutcome.line (strip s)
  | ReadOutcome.exn e => ReadOutcome.exn e

/-- Model of `DeployedDevice.recv`, parametric in the behaviour `rl` of the
external `serial.readline` call: save the default timeout, install the
per-call override when given, run the read, and in all cases (`finally`)
restore the saved default before returning or re-raising. -/
def recv {σ : Type} (rl : SerialState σ → ReadOutcome × SerialState σ)
    (t : Option ℚ) (st : SerialState σ) : ReadOutcome × SerialState σ :=
  let old := st.timeout
  let st1 := match t with
    | some v => { st with timeout := some v }
    | none => st
  let res := rl st1
  (outcomeStrip res.1, { res.2 with timeout := old })

/-- C9 (confirmed): after any `recv` call — with or without a per-call
timeout override, whether the underlying read returns a line or raises —
the channel's default timeout equals its value before the call. -/
theorem c9_recv_restores_timeout {σ : Type}
    (rl : SerialState σ → ReadOutcome × SerialState σ) (t : Option ℚ)
    (st : SerialState σ) :
    ((recv rl t st).2).timeout = st.timeout := rfl

end Harness
